import Mathlib

/-!
Shallow embedding of the authentication and session core of
`src/musicproject1.py`, a small FastAPI music-library service.

Modelling conventions:
* Wall-clock time is an integer count of seconds, passed explicitly to
  every function whose Python counterpart reads `datetime.utcnow()`.
* A raised `HTTPException` (or `ValueError` from passlib) is modelled as
  the `Except.error` branch of an `Except Err _` result.
* The JWT library (python-jose) is embedded symbolically: a signed token
  records the payload that was signed and the key used, so signature
  verification is the check that the transported payload and key match
  the signed ones; `jwt.decode` validates the `exp` claim with the
  strict comparison `exp < now` (python-jose `_validate_exp`), so a
  token whose expiry equals the current clock reading still verifies.
* passlib bcrypt is embedded symbolically: a digest produced by `hash`
  is a tagged injective image of the plaintext; `verify` identifies the
  scheme from the digest and raises `ValueError` when the digest is not
  recognized (passlib behaviour for malformed digests).
-/

deriving instance DecidableEq for Except

namespace MusicProject

/-- Server-side signing secret (`SECRET_KEY` in the source). -/
def SECRET_KEY : String := "secret_key_example"

/-- Fixed login TTL in minutes (`ACCESS_TOKEN_EXPIRE_MINUTES`). -/
def ACCESS_TOKEN_EXPIRE_MINUTES : Int := 30

/-- A stored user row (`UserModel`). -/
structure UserModel where
  id : Nat
  username : String
  email : Option String
  full_name : Option String
  hashed_password : String
  disabled : Bool
deriving DecidableEq, Repr

/-- A stored song row (`SongModel`). -/
structure SongModel where
  id : Nat
  name : String
  artist : String
  file_path : String
  owner_id : Nat
deriving DecidableEq, Repr

/-- The relational store backing the service. -/
structure DB where
  users : List UserModel
  songs : List SongModel
deriving DecidableEq, Repr

/-- Registration input (`UserCreate` pydantic model): carries the
plaintext password alongside the identity fields. -/
structure UserCreate where
  username : String
  password : String
  email : Option String
  full_name : Option String
deriving DecidableEq, Repr

/-- An `HTTPException`: status code, detail message and extra headers. -/
structure HTTPExc where
  statusCode : Nat
  detail : String
  headers : List (String × String)
deriving DecidableEq, Repr

/-- A failure raised by a handler: either an `HTTPException` or a
`ValueError` escaping from the password library. -/
inductive Err where
  | http (e : HTTPExc)
  | valueError (msg : String)
deriving DecidableEq, Repr

/-- The single failure value used for every authentication failure in
`get_current_user` (the `credentials_exception` object). -/
def credentials_exception : Err :=
  .http ⟨401, "Could not validate credentials", [("WWW-Authenticate", "Bearer")]⟩

/-! ## Password hashing (passlib bcrypt, embedded symbolically) -/

/-- Symbolic bcrypt digest of a plaintext: a tagged injective image.
The tag stands for the scheme identifier prefix of a real digest. -/
def pwd_context_hash (password : String) : String :=
  "$2b$12$" ++ password

/-- Whether passlib can identify the hashing scheme of a digest: the
digest starts with the scheme tag. -/
def pwd_context_identify (digest : String) : Bool :=
  digest.data.take 7 == "$2b$12$".data

/-- passlib `CryptContext.verify`: recompute-and-compare when the digest
is recognized; raise `ValueError` when the digest is malformed. -/
def pwd_context_verify (plain digest : String) : Except Err Bool :=
  if pwd_context_identify digest then
    .ok (digest == pwd_context_hash plain)
  else
    .error (.valueError "hash could not be identified")

/-- `verify_password` from the source: delegates to the context. -/
def verify_password (plain_password hashed_password : String) : Except Err Bool :=
  pwd_context_verify plain_password hashed_password

/-- `get_password_hash` from the source: delegates to the context. -/
def get_password_hash (password : String) : String :=
  pwd_context_hash password

/-! ## JWT issue and verification (python-jose, embedded symbolically) -/

/-- The claim set of a token: optional `sub` and optional integer `exp`. -/
structure Payload where
  sub : Option String
  exp : Option Int
deriving DecidableEq, Repr

/-- A raw token as transported in the cookie: either a string that does
not parse as a JWT at all, or a structurally well-formed signed token.
`sigPayload` and `sigKey` record what was actually signed, so tampering
with the transported payload makes them disagree. -/
inductive RawToken where
  | malformed (s : String)
  | signed (payload : Payload) (sigPayload : Payload) (sigKey : String)
deriving DecidableEq, Repr

/-- `jwt.encode`: sign a payload with a key. -/
def jwt_encode (payload : Payload) (key : String) : RawToken :=
  .signed payload payload key

/-- Failure modes of `jwt.decode`; both are subclasses of `JWTError`
in python-jose, so callers catching `JWTError` see either. -/
inductive JoseError where
  | jwtError
  | expiredSignature
deriving DecidableEq, Repr

/-- `jwt.decode`: check structure, then signature, then the `exp`
claim.  python-jose `_validate_exp` raises only when `exp < now`
strictly, so a token with `exp = now` is accepted. -/
def jwt_decode (token : RawToken) (key : String) (now : Int) :
    Except JoseError Payload :=
  match token with
  | .malformed _ => .error .jwtError
  | .signed payload sigPayload sigKey =>
    if sigPayload = payload ∧ sigKey = key then
      match payload.exp with
      | none => .ok payload
      | some exp => if exp < now then .error .expiredSignature else .ok payload
    else
      .error .jwtError

/-- `create_access_token`: expiry is `now` plus the given delta, or 15
minutes when no delta is supplied; the result is signed with
`SECRET_KEY`.  `data` is the `sub` claim the callers pass. -/
def create_access_token (data : Option String) (expires_delta : Option Int)
    (now : Int) : RawToken :=
  let expire : Int := now + (match expires_delta with | some d => d | none => 15 * 60)
  jwt_encode ⟨data, some expire⟩ SECRET_KEY

/-! ## Credential store lookups and the login/session core -/

/-- `get_user_by_username`: first stored row with the given username. -/
def get_user_by_username (db : DB) (username : String) : Option UserModel :=
  db.users.find? (fun u => u.username == username)

/-- `authenticate_user`: `.ok none` models the Python `return False`
branches (user absent, or password does not verify); a `ValueError`
from the hash library propagates. -/
def authenticate_user (db : DB) (username password : String) :
    Except Err (Option UserModel) :=
  match get_user_by_username db username with
  | none => .ok none
  | some user =>
    match verify_password password user.hashed_password with
    | .error e => .error e
    | .ok ok => if ok then .ok (some user) else .ok none

/-- `get_current_user`: read the `access_token` cookie, decode it,
extract `sub`, and load the user; every failure raises the single
`credentials_exception`. -/
def get_current_user (cookie : Option RawToken) (db : DB) (now : Int) :
    Except Err UserModel :=
  match cookie with
  | none => .error credentials_exception
  | some token =>
    match jwt_decode token SECRET_KEY now with
    | .error _ => .error credentials_exception
    | .ok payload =>
      match payload.sub with
      | none => .error credentials_exception
      | some username =>
        match get_user_by_username db username with
        | none => .error credentials_exception
        | some user => .ok user

/-- `get_current_active_user`: reject a resolved but disabled user with
a 400 `Inactive user` failure. -/
def get_current_active_user (cookie : Option RawToken) (db : DB) (now : Int) :
    Except Err UserModel :=
  match get_current_user cookie db now with
  | .error e => .error e
  | .ok user =>
    if user.disabled then .error (.http ⟨400, "Inactive user", []⟩)
    else .ok user

/-! ## Login endpoint -/

/-- A `set_cookie` call on the login redirect response. -/
structure SetCookie where
  key : String
  value : RawToken
  httponly : Bool
  secure : Bool
deriving DecidableEq, Repr

/-- The login success response: a redirect carrying the token cookie. -/
structure LoginResponse where
  redirectUrl : String
  statusCode : Nat
  cookie : SetCookie
deriving DecidableEq, Repr

/-- The generic login failure raised for any bad credential pair. -/
def login_failure : Err :=
  .http ⟨401, "Incorrect username or password", [("WWW-Authenticate", "Bearer")]⟩

/-- `login_for_access_token`: authenticate, then issue a token with the
fixed 30-minute TTL and set it as an HTTP-only secure cookie on a 303
redirect to `/songs`. -/
def login_for_access_token (db : DB) (username password : String) (now : Int) :
    Except Err LoginResponse :=
  match authenticate_user db username password with
  | .error e => .error e
  | .ok none => .error login_failure
  | .ok (some user) =>
    let access_token := create_access_token (some user.username)
      (some (ACCESS_TOKEN_EXPIRE_MINUTES * 60)) now
    .ok { redirectUrl := "/songs", statusCode := 303,
          cookie := { key := "access_token", value := access_token,
                      httponly := true, secure := true } }

/-! ## Registration endpoint -/

/-- The rendered response of a successful registration: the template
name and the `user` object placed in the template context.  The context
object is the full `UserCreate`, plaintext password included. -/
structure RegisterResponse where
  template : String
  user : UserCreate
deriving DecidableEq, Repr

/-- `create_user`: hash the password and append the new row; the new
primary key continues the autoincrement sequence. -/
def create_user (db : DB) (user : UserCreate) : DB × UserModel :=
  let db_user : UserModel :=
    { id := db.users.length + 1
      username := user.username
      email := user.email
      full_name := user.full_name
      hashed_password := get_password_hash user.password
      disabled := false }
  ({ db with users := db.users ++ [db_user] }, db_user)

/-- `register`: reject a duplicate username first, then a duplicate
email (SQLAlchemy `filter_by(email=email)` with `None` compiles to an
`IS NULL` test, so `Option` equality is the faithful match), then
create the user and render `login_form.html` with the `UserCreate`
object in the context.  The store is returned alongside the outcome so
that failure paths visibly leave it unchanged. -/
def register (db : DB) (username password : String)
    (email full_name : Option String) : DB × Except Err RegisterResponse :=
  match get_user_by_username db username with
  | some _ => (db, .error (.http ⟨400, "Username already registered", []⟩))
  | none =>
    match db.users.find? (fun u => u.email == email) with
    | some _ => (db, .error (.http ⟨400, "Email already registered", []⟩))
    | none =>
      let user : UserCreate :=
        { username := username, password := password,
          email := email, full_name := full_name }
      let (db2, _) := create_user db user
      (db2, .ok { template := "login_form.html", user := user })

/-! ## Song edit and delete endpoints -/

/-- Update the first list element satisfying the predicate. -/
def updateFirst (p : SongModel → Bool) (f : SongModel → SongModel) :
    List SongModel → List SongModel
  | [] => []
  | s :: rest => if p s then f s :: rest else s :: updateFirst p f rest

/-- Remove the first list element satisfying the predicate. -/
def eraseFirst (p : SongModel → Bool) : List SongModel → List SongModel
  | [] => []
  | s :: rest => if p s then rest else s :: eraseFirst p rest

/-- The row filter used by both song endpoints: name and artist only. -/
def song_filter (name artist : String) (s : SongModel) : Bool :=
  s.name == name && s.artist == artist

/-- The field rewrite applied by `edit_song`: each rename is guarded
by Python truthiness of the corresponding form input. -/
def edited_song (name artist new_name new_artist : String)
    (song : SongModel) : SongModel :=
  { song with
    name := if name ≠ "" then new_name else song.name
    artist := if artist ≠ "" then new_artist else song.artist }

/-- `edit_song`: select the first song matching name and artist over
the whole table (no owner filter), 404 when absent, otherwise rewrite
the fields guarded by Python truthiness of the form inputs.  The
authenticated `current_user` is received but never consulted. -/
def edit_song (db : DB) (name artist new_name new_artist : String)
    (current_user : UserModel) : Except Err (DB × SongModel) :=
  match db.songs.find? (song_filter name artist) with
  | none => .error (.http ⟨404,
      "Song not found or you do not have permission to edit it", []⟩)
  | some song =>
    let song2 : SongModel := edited_song name artist new_name new_artist song
    let db2 : DB :=
      { db with songs := updateFirst (song_filter name artist) (fun _ => song2) db.songs }
    .ok (db2, song2)

/-- `delete_song`: select the first song matching name and artist over
the whole table (no owner filter), 404 when absent, otherwise delete
the row.  The authenticated `current_user` is received but never
consulted. -/
def delete_song (db : DB) (name artist : String)
    (current_user : UserModel) : Except Err DB :=
  match db.songs.find? (song_filter name artist) with
  | none => .error (.http ⟨404,
      "Song not found or you dont have permission to delete it", []⟩)
  | some _ =>
    .ok { db with songs := eraseFirst (song_filter name artist) db.songs }

/-! ## Concrete fixtures used by witnesses and counterexamples -/

/-- A store holding one enabled user `alice` with password `pw`. -/
def aliceUser : UserModel :=
  { id := 1, username := "alice", email := some "a@x", full_name := none,
    hashed_password := get_password_hash "pw", disabled := false }

/-- A store holding one disabled user `bob` with password `pw`. -/
def bobUser : UserModel :=
  { id := 1, username := "bob", email := none, full_name := none,
    hashed_password := get_password_hash "pw", disabled := true }

/-- Store with only `alice`. -/
def aliceDB : DB := ⟨[aliceUser], []⟩

/-- Store with only the disabled `bob`. -/
def bobDB : DB := ⟨[bobUser], []⟩

/-- The empty store. -/
def emptyDB : DB := ⟨[], []⟩

/-- A fresh, correctly signed token for `bob`, issued at time 0. -/
def bobToken : RawToken := create_access_token (some "bob") (some 1800) 0

/-- A user whose stored digest `zzz` is not a recognizable hash. -/
def malUser : UserModel :=
  { id := 1, username := "mal", email := none, full_name := none,
    hashed_password := "zzz", disabled := false }

/-- Store with only `malUser`. -/
def malDB : DB := ⟨[malUser], []⟩

/-- A second enabled user `eve` with id 2. -/
def eveUser : UserModel :=
  { id := 2, username := "eve", email := some "e@x", full_name := none,
    hashed_password := get_password_hash "pw", disabled := false }

/-- A song owned by `alice` (owner id 1). -/
def song1 : SongModel :=
  { id := 1, name := "Song", artist := "Artist",
    file_path := "static/f.mp3", owner_id := 1 }

/-- Store holding `alice`, `eve` and the song owned by `alice`. -/
def twoUserDB : DB := ⟨[aliceUser, eveUser], [song1]⟩

/-! ## Claims -/

/-- C1 counterexample: with a valid token for the disabled user `bob`,
the session resolver raises status 400 `Inactive user`, not the HTTP
Forbidden status 403 that the claim names. -/
theorem c1_counterexample :
    get_current_active_user (some bobToken) bobDB 0 =
      .error (.http ⟨400, "Inactive user", []⟩) ∧
    (Err.http ⟨400, "Inactive user", []⟩ ≠ .http ⟨403, "Inactive user", []⟩) := by
  constructor
  · decide
  · decide

/-- C1 amended: for every request whose token verifies and resolves to
an existing user with the disabled flag set, the session resolver
signals the fixed failure with status 400 and detail `Inactive user`,
which is distinct from the 401 `credentials_exception` used for
missing or invalid tokens (though its status is 400, not 403). -/
theorem c1_disabled_distinct_failure (cookie : Option RawToken) (db : DB)
    (now : Int) (user : UserModel)
    (h : get_current_user cookie db now = .ok user)
    (hd : user.disabled = true) :
    get_current_active_user cookie db now =
      .error (.http ⟨400, "Inactive user", []⟩) ∧
    (Err.http ⟨400, "Inactive user", []⟩ ≠ credentials_exception) := by
  refine ⟨?_, by decide⟩
  simp [get_current_active_user, h, hd]

/-- C1 witness: the disabled-user fixture instantiates the theorem. -/
theorem c1_witness :
    get_current_active_user (some bobToken) bobDB 0 =
      .error (.http ⟨400, "Inactive user", []⟩) ∧
    (Err.http ⟨400, "Inactive user", []⟩ ≠ credentials_exception) :=
  c1_disabled_distinct_failure (some bobToken) bobDB 0 bobUser (by decide) (by decide)

/-- C2: every unauthorized cause in the session resolver — absent
cookie, malformed token, tampered token or wrong key, expired token,
missing `sub` claim, and username matching no stored user — yields the
one identical failure value `credentials_exception`. -/
theorem c2_unauthorized_uniform (db : DB) (now : Int) :
    (get_current_user none db now = .error credentials_exception) ∧
    (∀ s : String,
      get_current_user (some (.malformed s)) db now = .error credentials_exception) ∧
    (∀ p sp : Payload, ∀ k : String, ¬ (sp = p ∧ k = SECRET_KEY) →
      get_current_user (some (.signed p sp k)) db now = .error credentials_exception) ∧
    (∀ sub : Option String, ∀ e : Int, e < now →
      get_current_user (some (jwt_encode ⟨sub, some e⟩ SECRET_KEY)) db now =
        .error credentials_exception) ∧
    (∀ e : Option Int,
      get_current_user (some (jwt_encode ⟨none, e⟩ SECRET_KEY)) db now =
          .error credentials_exception ∨
        (∃ ex : Int, e = some ex ∧ ex < now)) ∧
    (∀ u : String, ∀ e : Int, now ≤ e → get_user_by_username db u = none →
      get_current_user (some (jwt_encode ⟨some u, some e⟩ SECRET_KEY)) db now =
        .error credentials_exception) := by
  refine ⟨rfl, fun s => rfl, ?_, ?_, ?_, ?_⟩
  · intro p sp k h
    simp only [get_current_user, jwt_decode]
    rw [if_neg h]
  · intro sub e he
    simp [get_current_user, jwt_encode, jwt_decode, he]
  · intro e
    match e with
    | none => exact .inl rfl
    | some ex =>
      by_cases hx : ex < now
      · exact .inr ⟨ex, rfl, hx⟩
      · left
        simp [get_current_user, jwt_encode, jwt_decode, hx]
  · intro u e he hu
    simp [get_current_user, jwt_encode, jwt_decode, not_lt.mpr he, hu]

/-- C2 witness: concrete instances of the tampered, expired and
unknown-user branches, all evaluating to `credentials_exception`. -/
theorem c2_witness :
    get_current_user (some (.signed ⟨some "alice", some 99⟩ ⟨some "eve", some 99⟩
        SECRET_KEY)) aliceDB 5 = .error credentials_exception ∧
    get_current_user (some (jwt_encode ⟨some "alice", some 3⟩ SECRET_KEY)) aliceDB 5 =
      .error credentials_exception ∧
    get_current_user (some (jwt_encode ⟨some "carol", some 9⟩ SECRET_KEY)) aliceDB 5 =
      .error credentials_exception := by
  refine ⟨?_, ?_, ?_⟩
  · exact (c2_unauthorized_uniform aliceDB 5).2.2.1 ⟨some "alice", some 99⟩
      ⟨some "eve", some 99⟩ SECRET_KEY (by decide)
  · exact (c2_unauthorized_uniform aliceDB 5).2.2.2.1 (some "alice") 3 (by decide)
  · exact (c2_unauthorized_uniform aliceDB 5).2.2.2.2.2 "carol" 9 (by decide) (by decide)

/-- C3: a login with a nonexistent username and a login with an
existing username but non-verifying password raise the one identical
generic failure `login_failure` (same status 401 and same message). -/
theorem c3_login_uniform (db : DB) (username password : String) (now : Int) :
    (get_user_by_username db username = none →
      login_for_access_token db username password now = .error login_failure) ∧
    (∀ user : UserModel, get_user_by_username db username = some user →
      verify_password password user.hashed_password = .ok false →
      login_for_access_token db username password now = .error login_failure) := by
  constructor
  · intro h
    simp only [login_for_access_token, authenticate_user, h]
  · intro user hu hv
    simp only [login_for_access_token, authenticate_user, hu, hv]
    rfl

/-- C3 witness: against a store holding only `alice`, both the unknown
username `carol` and the wrong password for `alice` produce
`login_failure`. -/
theorem c3_witness :
    login_for_access_token aliceDB "carol" "pw" 0 = .error login_failure ∧
    login_for_access_token aliceDB "alice" "wrong" 0 = .error login_failure := by
  constructor
  · exact (c3_login_uniform aliceDB "carol" "pw" 0).1 (by decide)
  · exact (c3_login_uniform aliceDB "alice" "wrong" 0).2 aliceUser (by decide) (by decide)

/-- C4: the code contradicts the claim — on a successful registration
the handler places the full `UserCreate` object, plaintext password
included, into the response template context.  Evaluated at the
failing input (registering `alice` with password `hunter2` on an empty
store): the response carries the plaintext password. -/
theorem c4_password_in_response :
    (register emptyDB "alice" "hunter2" none none).2 =
      .ok { template := "login_form.html",
            user := { username := "alice", password := "hunter2",
                      email := none, full_name := none } } ∧
    ∃ r : RegisterResponse, (register emptyDB "alice" "hunter2" none none).2 = .ok r ∧
      r.user.password = "hunter2" := by
  refine ⟨by decide, ?_⟩
  refine ⟨{ template := "login_form.html",
            user := { username := "alice", password := "hunter2",
                      email := none, full_name := none } }, by decide, by decide⟩

/-- C5 counterexample: a token issued at time 40 with TTL 60 still
verifies at time 100, exactly its expiry instant, contradicting the
claim that verification fails at exactly `now + t`. -/
theorem c5_counterexample :
    jwt_decode (create_access_token (some "alice") (some 60) 40) SECRET_KEY 100 =
      .ok ⟨some "alice", some 100⟩ := by decide

/-- C5 amended: a token issued with TTL `t` verifies at every time up
to and including `now + t` and fails at every strictly later time; no
leeway is granted beyond the boundary, but the boundary instant itself
is accepted, so a token expiring at exactly the current time is still
valid. -/
theorem c5_expiry_boundary (sub : String) (ttl issueTime checkTime : Int) :
    (checkTime ≤ issueTime + ttl →
      jwt_decode (create_access_token (some sub) (some ttl) issueTime) SECRET_KEY
          checkTime = .ok ⟨some sub, some (issueTime + ttl)⟩) ∧
    (issueTime + ttl < checkTime →
      jwt_decode (create_access_token (some sub) (some ttl) issueTime) SECRET_KEY
          checkTime = .error .expiredSignature) := by
  constructor
  · intro h
    simp [jwt_decode, create_access_token, jwt_encode, not_lt.mpr h]
  · intro h
    simp [jwt_decode, create_access_token, jwt_encode, h]

/-- C5 witness: concrete instances on both sides of the boundary. -/
theorem c5_witness :
    jwt_decode (create_access_token (some "alice") (some 60) 40) SECRET_KEY 99 =
      .ok ⟨some "alice", some 100⟩ ∧
    jwt_decode (create_access_token (some "alice") (some 60) 40) SECRET_KEY 101 =
      .error .expiredSignature := by
  constructor
  · exact (c5_expiry_boundary "alice" 60 40 99).1 (by decide)
  · exact (c5_expiry_boundary "alice" 60 40 101).2 (by decide)

/-- C6 counterexample: verifying any plaintext against the malformed
digest `garbage` raises a `ValueError` instead of returning false,
contradicting the claim that verification returns false and never
throws. -/
theorem c6_counterexample :
    verify_password "pw" "garbage" =
      .error (.valueError "hash could not be identified") ∧
    ∀ b : Bool, verify_password "pw" "garbage" ≠ .ok b := by
  refine ⟨by decide, fun b => ?_⟩
  cases b <;> decide

/-- C6 amended: verification against a digest whose scheme cannot be
identified raises a `ValueError` rather than returning false; the
error is never a successful verification, and at the login flow it
propagates as a failure, never an issued session. -/
theorem c6_malformed_digest_fails_closed (plain digest : String)
    (h : pwd_context_identify digest = false) :
    verify_password plain digest =
      .error (.valueError "hash could not be identified") ∧
    (∀ b : Bool, verify_password plain digest ≠ .ok b) ∧
    (∀ db : DB, ∀ username : String, ∀ now : Int, ∀ user : UserModel,
      get_user_by_username db username = some user →
      user.hashed_password = digest →
      login_for_access_token db username plain now =
        .error (.valueError "hash could not be identified")) := by
  have hv : verify_password plain digest =
      .error (.valueError "hash could not be identified") := by
    simp [verify_password, pwd_context_verify, h]
  refine ⟨hv, fun b => by simp [hv], ?_⟩
  intro db username now user hu hd
  simp only [login_for_access_token, authenticate_user, hu, hd, hv]

/-- C6 witness: a store whose only user carries the digest `garbage`;
the login flow surfaces the `ValueError`. -/
theorem c6_witness :
    verify_password "pw" "zzz" =
      .error (.valueError "hash could not be identified") ∧
    login_for_access_token malDB "mal" "pw" 0 =
      .error (.valueError "hash could not be identified") := by
  have h := c6_malformed_digest_fails_closed "pw" "zzz" (by decide)
  exact ⟨h.1, h.2.2 malDB "mal" 0 malUser (by decide) (by decide)⟩

/-- C7: a registration with an already-stored username fails with the
duplicate-username conflict and the unchanged store (the username
collision is checked first, so this error wins even when the email
also collides); moreover every failing registration leaves the store
unchanged. -/
theorem c7_duplicate_username (db : DB) (username password : String)
    (email full_name : Option String) :
    ((get_user_by_username db username).isSome = true →
      register db username password email full_name =
        (db, .error (.http ⟨400, "Username already registered", []⟩))) ∧
    (∀ e : Err, (register db username password email full_name).2 = .error e →
      (register db username password email full_name).1 = db) := by
  constructor
  · intro h
    match hu : get_user_by_username db username with
    | some u => simp only [register, hu]
    | none => rw [hu] at h; simp at h
  · intro e h2
    simp only [register] at h2 ⊢
    cases hu : get_user_by_username db username with
    | some u => rfl
    | none =>
      rw [hu] at h2
      cases hf : db.users.find? (fun u => u.email == email) with
      | some v => rfl
      | none => rw [hf] at h2; simp at h2

/-- C7 witness: registering `alice` again over the `alice` store is
rejected with the duplicate-username conflict and no new record. -/
theorem c7_witness :
    register aliceDB "alice" "pw2" (some "a@x") none =
      (aliceDB, .error (.http ⟨400, "Username already registered", []⟩)) :=
  (c7_duplicate_username aliceDB "alice" "pw2" (some "a@x") none).1 (by decide)

/-- C8: every successful login issues a token signed with the server
secret embedding the user's username and an expiry of `now` plus 30
minutes, set as the `access_token` cookie with the HTTP-only and
secure flags on the 303 redirect to `/songs`. -/
theorem c8_login_token_and_cookie (db : DB) (username password : String)
    (now : Int) (user : UserModel)
    (h : authenticate_user db username password = .ok (some user)) :
    login_for_access_token db username password now =
      .ok { redirectUrl := "/songs", statusCode := 303,
            cookie := { key := "access_token",
                        value := jwt_encode
                          ⟨some user.username, some (now + 30 * 60)⟩ SECRET_KEY,
                        httponly := true, secure := true } } := by
  simp only [login_for_access_token, h, create_access_token,
    ACCESS_TOKEN_EXPIRE_MINUTES]

/-- C8 witness: logging `alice` in with her correct password at time 0
yields the expected cookie-bearing redirect. -/
theorem c8_witness :
    login_for_access_token aliceDB "alice" "pw" 0 =
      .ok { redirectUrl := "/songs", statusCode := 303,
            cookie := { key := "access_token",
                        value := jwt_encode ⟨some "alice", some 1800⟩ SECRET_KEY,
                        httponly := true, secure := true } } := by
  have h := c8_login_token_and_cookie aliceDB "alice" "pw" 0 aliceUser (by decide)
  exact h.trans (by decide)

/-- C9: the song edit and delete endpoints select the first stored
song matching the given name and artist across the whole table —
their outcome is independent of which authenticated user calls them —
so a caller edits or deletes the first match even when its owner is a
different user. -/
theorem c9_no_owner_filter (db : DB) (name artist new_name new_artist : String)
    (u : UserModel) (s : SongModel)
    (hfind : db.songs.find? (song_filter name artist) = some s)
    (howner : s.owner_id ≠ u.id) :
    (∀ u2 : UserModel,
      edit_song db name artist new_name new_artist u2 =
        edit_song db name artist new_name new_artist u ∧
      delete_song db name artist u2 = delete_song db name artist u) ∧
    edit_song db name artist new_name new_artist u =
      .ok ({ db with songs := updateFirst (song_filter name artist) (fun _ => edited_song name artist new_name new_artist s) db.songs }, edited_song name artist new_name new_artist s) ∧
    delete_song db name artist u =
      .ok { db with songs := eraseFirst (song_filter name artist) db.songs } := by
  refine ⟨fun u2 => ⟨rfl, rfl⟩, ?_, ?_⟩
  · simp only [edit_song, hfind]
  · simp only [delete_song, hfind]

/-- C9 witness: `eve` (id 2) edits and deletes the song owned by
`alice` (id 1). -/
theorem c9_witness :
    edit_song twoUserDB "Song" "Artist" "NewSong" "NewArtist" eveUser =
      .ok (⟨[aliceUser, eveUser], [⟨1, "NewSong", "NewArtist", "static/f.mp3", 1⟩]⟩,
           ⟨1, "NewSong", "NewArtist", "static/f.mp3", 1⟩) ∧
    delete_song twoUserDB "Song" "Artist" eveUser =
      .ok ⟨[aliceUser, eveUser], []⟩ := by
  have h := c9_no_owner_filter twoUserDB "Song" "Artist" "NewSong" "NewArtist"
    eveUser song1 (by decide) (by decide)
  exact ⟨h.2.1.trans (by decide), h.2.2.trans (by decide)⟩

/-- C10: a registration that omits the email field, against a store
already holding some user without an email, is rejected with the
duplicate-email conflict: the email-uniqueness lookup compiles to an
`IS NULL` test that matches the stored null email. -/
theorem c10_null_email_conflict (db : DB) (username password : String)
    (full_name : Option String)
    (hu : get_user_by_username db username = none)
    (he : ∃ u ∈ db.users, u.email = none) :
    register db username password none full_name =
      (db, .error (.http ⟨400, "Email already registered", []⟩)) := by
  simp only [register, hu]
  cases hf : db.users.find? (fun u => u.email == (none : Option String)) with
  | some v => rfl
  | none =>
    exfalso
    obtain ⟨u, hmem, hmail⟩ := he
    have hne := List.find?_eq_none.mp hf u hmem
    simp [hmail] at hne

/-- C10 witness: registering the fresh username `carol` with no email
over the store holding `bob` (whose email is null) is rejected as a
duplicate email. -/
theorem c10_witness :
    register bobDB "carol" "pw" none none =
      (bobDB, .error (.http ⟨400, "Email already registered", []⟩)) :=
  c10_null_email_conflict bobDB "carol" "pw" none (by decide)
    ⟨bobUser, by decide, rfl⟩

end MusicProject
